import Mathlib

/-!
Shallow embedding of the admission/discharge/room-allocation core of
`src/app.py` (hospital management dashboard).

The record store holds `Room` and `Admission` rows.  SQL statements issued by
the core are embedded as the inductive `Stmt`; their success semantics is
`applyStmt`.  The database driver may fail any individual statement for
external reasons (connection loss, constraint violation), which is modelled by
passing an `exec : Stmt → Store → Option Store`; `Faithful exec` says that
whenever the driver succeeds it has the SQL semantics `applyStmt`.

`execute_transaction` mirrors the Python function of the same name
(cursor loop, `commit` on success, `rollback` + `False` on any failure).
`create_new_admission` mirrors the form-submit branch of the Python
`create_new_admission` (available-room query, no-capacity early return,
two-statement transaction).  `process_discharge` mirrors the Python
`process_discharge` (RoomID lookup, fall-through `None` on empty result,
two-statement transaction).
-/

/-- A row of the `Room` table. -/
structure Room where
  roomID : Nat
  roomNumber : Nat
  roomType : String
  status : String
deriving Repr, DecidableEq

/-- A row of the `Admission` table.  `roomID` is `none` when the stored
`RoomID` reference is missing (SQL NULL). -/
structure Admission where
  admissionID : Nat
  patientID : Nat
  doctorID : Nat
  roomID : Option Nat
  admissionDate : String
  dischargeDate : Option String
  status : String
  notes : String
deriving Repr, DecidableEq

/-- The record store: the two tables the core writes, plus the identity
counter that generates `AdmissionID` values on insert. -/
structure Store where
  rooms : List Room
  admissions : List Admission
  nextAdmissionID : Nat
deriving Repr, DecidableEq

/-- The SQL statements issued by the admission/discharge core:
the `INSERT INTO Admission ... 'Admitted' ...`, the
`UPDATE Room SET Status = ? WHERE RoomID = ?`, and the
`UPDATE Admission SET Status = 'Discharged', DischargeDate = ? WHERE
AdmissionID = ?`. -/
inductive Stmt where
  | insertAdmission (patientID doctorID roomID : Nat)
      (admissionDate : String) (notes : String)
  | updateRoomStatus (roomID : Nat) (status : String)
  | updateAdmissionDischarge (dischargeDate : String) (admissionID : Nat)
deriving Repr, DecidableEq

/-- Effect of `UPDATE Room SET Status = st WHERE RoomID = rid` on one row. -/
def roomUpd (st : String) (rid : Nat) (r : Room) : Room :=
  if r.roomID == rid then { r with status := st } else r

/-- Effect of `UPDATE Admission SET Status = 'Discharged', DischargeDate = d
WHERE AdmissionID = aid` on one row. -/
def dischargeUpd (d : String) (aid : Nat) (a : Admission) : Admission :=
  if a.admissionID == aid then
    { a with status := "Discharged", dischargeDate := some d }
  else a

/-- Success semantics of each SQL statement on the store. -/
def applyStmt : Stmt → Store → Store
  | Stmt.insertAdmission pid did rid date notes, s =>
      { s with
        admissions := s.admissions ++
          [⟨s.nextAdmissionID, pid, did, some rid, date, none, "Admitted", notes⟩],
        nextAdmissionID := s.nextAdmissionID + 1 }
  | Stmt.updateRoomStatus rid st, s =>
      { s with rooms := s.rooms.map (roomUpd st rid) }
  | Stmt.updateAdmissionDischarge date aid, s =>
      { s with admissions := s.admissions.map (dischargeUpd date aid) }

/-- A database driver: executes one statement, possibly failing. -/
def Driver : Type := Stmt → Store → Option Store

/-- A driver is faithful when every statement it lets succeed has the SQL
semantics `applyStmt`; it may still fail any statement. -/
def Faithful (exec : Driver) : Prop :=
  ∀ st s, exec st s = none ∨ exec st s = some (applyStmt st s)

/-- The always-succeeding driver. -/
def execStmt : Driver := fun st s => some (applyStmt st s)

/-- The always-failing driver. -/
def execNone : Driver := fun _ _ => none

/-- A driver that fails exactly the `UPDATE Room` statements (so a
transaction fails midway, after its first statement succeeded). -/
def execFailRoomUpd : Driver := fun st s =>
  match st with
  | Stmt.updateRoomStatus _ _ => none
  | _ => some (applyStmt st s)

/-- The `for query, params in queries_and_params: cursor.execute(...)` loop:
runs the statements in order, stopping at the first failure. -/
def runStmts (exec : Driver) : List Stmt → Store → Option Store
  | [], s => some s
  | q :: qs, s =>
      match exec q s with
      | some s' => runStmts exec qs s'
      | none => none

/-- Python `execute_transaction(queries_and_params)`: executes all statements
then commits, returning `True`; on any exception rolls back (the store is as
before) and returns `False`. -/
def execute_transaction (exec : Driver) (queries : List Stmt) (s : Store) :
    Bool × Store :=
  match runStmts exec queries s with
  | some s' => (true, s')
  | none => (false, s)

/-- The available-rooms query of the admission form:
`SELECT RoomID, RoomNumber FROM Room WHERE RoomType = ? AND Status =
'Available'`. -/
def find_available (room_type : String) (s : Store) : List Room :=
  s.rooms.filter (fun r => r.roomType == room_type && r.status == "Available")

/-- Outcome of the admit-patient submit branch, as surfaced to the user:
`noCapacity` is the "No available rooms of the selected type" early return,
`txFailed` is `execute_transaction` returning `False`, `selectionError` is a
selected room number absent from the available list (unreachable through the
form, whose select box only offers rooms from the list). -/
inductive AdmitResult where
  | success
  | noCapacity
  | txFailed
  | selectionError
deriving Repr, DecidableEq

/-- The form-submit branch of Python `create_new_admission`: if no room of
the requested type is available the handler errors out without touching the
store; otherwise it resolves the selected room number to its `RoomID` and
runs the two-statement transaction (insert the Admission row with
`Status = 'Admitted'`, set the Room to `'Occupied'`). -/
def create_new_admission (patient_id doctor_id : Nat) (room_type : String)
    (selected_room_number : Nat) (admission_date notes : String)
    (exec : Driver) (s : Store) : AdmitResult × Store :=
  match (find_available room_type s).find?
      (fun r => r.roomNumber == selected_room_number) with
  | none =>
      if (find_available room_type s).isEmpty then (AdmitResult.noCapacity, s)
      else (AdmitResult.selectionError, s)
  | some room =>
      match execute_transaction exec
          [Stmt.insertAdmission patient_id doctor_id room.roomID
             admission_date notes,
           Stmt.updateRoomStatus room.roomID "Occupied"] s with
      | (true, s') => (AdmitResult.success, s')
      | (false, s') => (AdmitResult.txFailed, s')

/-- Python `DatabaseConnection.run_query`: wraps a raw store read; every
exception is caught and turned into an empty DataFrame, so a failed read is
delivered to the caller as the empty row list. -/
def run_query {α : Type} (readOutcome : Except String (List α)) : List α :=
  match readOutcome with
  | Except.ok rows => rows
  | Except.error _ => []

/-- The body of Python `process_discharge` after its `run_query` lookup:
an empty result falls through (the function returns `None`); a row whose
`RoomID` is NULL raises on `int(...)` and is caught (`False`, no writes);
otherwise the two-statement discharge transaction runs and its boolean is
returned. -/
def discharge_core (admission_id : Nat) (discharge_date : String)
    (exec : Driver) (room_data : List Admission) (s : Store) :
    Option Bool × Store :=
  match room_data.head? with
  | none => (none, s)
  | some a =>
      match a.roomID with
      | none => (some false, s)
      | some room_id =>
          match execute_transaction exec
              [Stmt.updateAdmissionDischarge discharge_date admission_id,
               Stmt.updateRoomStatus room_id "Available"] s with
          | (ok, s') => (some ok, s')

/-- Python `process_discharge(admission_id, discharge_date, discharge_notes)`:
looks up `RoomID` from `Admission WHERE AdmissionID = ?` and runs the
discharge transaction.  `discharge_notes` is accepted but never written (the
transaction uses "only essential columns").  The result is `none` (Python
`None`) when the lookup is empty. -/
def process_discharge (admission_id : Nat)
    (discharge_date discharge_notes : String) (exec : Driver) (s : Store) :
    Option Bool × Store :=
  discharge_core admission_id discharge_date exec
    (s.admissions.filter (fun a => a.admissionID == admission_id)) s

/-- `process_discharge` with the raw outcome of the store read made explicit,
routed through `run_query` exactly as in the Python code. -/
def process_discharge_with_read (admission_id : Nat)
    (discharge_date discharge_notes : String)
    (readOutcome : Except String (List Admission)) (exec : Driver)
    (s : Store) : Option Bool × Store :=
  discharge_core admission_id discharge_date exec (run_query readOutcome) s

/-- Number of Admission rows referencing room `rid` with
`Status = 'Admitted'`. -/
def countAdmitted (l : List Admission) (rid : Nat) : Nat :=
  (l.filter (fun a => a.roomID == some rid && a.status == "Admitted")).length

/-- The spec's room-occupancy invariant: a room is `Occupied` iff exactly one
Admission references it with `Status = 'Admitted'`. -/
def roomInv (s : Store) : Prop :=
  ∀ r ∈ s.rooms,
    (r.status = "Occupied" ↔ countAdmitted s.admissions r.roomID = 1)

/-- Boolean version of `roomInv`, for evaluation on concrete stores. -/
def roomInvB (s : Store) : Bool :=
  s.rooms.all (fun r =>
    (r.status == "Occupied") == (countAdmitted s.admissions r.roomID == 1))

/-- The inductive store invariant: each room's admitted-count matches its
status exactly, admission identifiers are pairwise distinct, and every stored
identifier is below the identity counter. -/
def strongInv (s : Store) : Prop :=
  (∀ r ∈ s.rooms,
      countAdmitted s.admissions r.roomID =
        if r.status = "Occupied" then 1 else 0) ∧
  s.admissions.Pairwise (fun a b => a.admissionID ≠ b.admissionID) ∧
  (∀ a ∈ s.admissions, a.admissionID < s.nextAdmissionID)

/-! ### Concrete stores used to exercise the operations -/

/-- The spec's concrete scenario: a single ICU room 101, available, and no
admissions; the next `AdmissionID` the store will assign is 50. -/
def demoStore : Store := ⟨[⟨101, 101, "ICU", "Available"⟩], [], 50⟩

/-- After admitting patient 7 into room 101. -/
def demoStep1 : Store :=
  (create_new_admission 7 3 "ICU" 101 "2024-01-01" "" execStmt demoStore).2

/-- After discharging admission 50 on 2024-01-10. -/
def demoStep2 : Store :=
  (process_discharge 50 "2024-01-10" "" execStmt demoStep1).2

/-- After re-admitting patient 8 into room 101 (admission 51). -/
def demoStep3 : Store :=
  (create_new_admission 8 3 "ICU" 101 "2024-01-11" "" execStmt demoStep2).2

/-- An admission row whose stored room reference is missing (SQL NULL). -/
def demoNullAdm : Admission := ⟨60, 1, 1, none, "2024-01-01", none, "Admitted", ""⟩

/-- A store containing only `demoNullAdm`. -/
def demoNullRoomStore : Store := ⟨[], [demoNullAdm], 61⟩

/-- A store with one General room and no ICU room. -/
def demoGeneralStore : Store := ⟨[⟨1, 1, "General", "Available"⟩], [], 0⟩

/-! ### Driver facts -/

theorem execStmt_faithful : Faithful execStmt := fun _ _ => Or.inr rfl

theorem execNone_faithful : Faithful execNone := fun _ _ => Or.inl rfl

theorem execFailRoomUpd_faithful : Faithful execFailRoomUpd := by
  intro st s
  cases st <;> simp [execFailRoomUpd, execStmt]

/-! ### Row-update and counting lemmas -/

theorem roomUpd_roomID (st : String) (rid : Nat) (r : Room) :
    (roomUpd st rid r).roomID = r.roomID := by
  unfold roomUpd; split <;> rfl

theorem dischargeUpd_admissionID (d : String) (aid : Nat) (a : Admission) :
    (dischargeUpd d aid a).admissionID = a.admissionID := by
  unfold dischargeUpd; split <;> rfl

theorem countAdmitted_cons (b : Admission) (t : List Admission) (rid : Nat) :
    countAdmitted (b :: t) rid =
      (if (b.roomID == some rid && b.status == "Admitted") = true then 1 else 0)
        + countAdmitted t rid := by
  simp only [countAdmitted, List.filter_cons]
  split <;> simp <;> omega

theorem countAdmitted_append (l l' : List Admission) (rid : Nat) :
    countAdmitted (l ++ l') rid = countAdmitted l rid + countAdmitted l' rid := by
  simp [countAdmitted, List.filter_append]

theorem countAdmitted_singleton (a : Admission) (rid : Nat) :
    countAdmitted [a] rid =
      if (a.roomID == some rid && a.status == "Admitted") = true then 1
      else 0 := by
  rw [countAdmitted_cons]
  simp [countAdmitted]

theorem countAdmitted_pos (l : List Admission) (a : Admission) (rid : Nat)
    (ha : a ∈ l) (h1 : a.roomID = some rid) (h2 : a.status = "Admitted") :
    0 < countAdmitted l rid := by
  have hmem :
      a ∈ l.filter (fun x => x.roomID == some rid && x.status == "Admitted") :=
    List.mem_filter.mpr ⟨ha, by simp [h1, h2]⟩
  unfold countAdmitted
  exact List.length_pos.mpr (List.ne_nil_of_mem hmem)

theorem map_dischargeUpd_eq_self (date : String) (aid : Nat) :
    ∀ t : List Admission, (∀ x ∈ t, x.admissionID ≠ aid) →
      t.map (dischargeUpd date aid) = t := by
  intro t
  induction t with
  | nil => intro _; rfl
  | cons b t ih =>
      intro h
      have hb : b.admissionID ≠ aid := h b (List.mem_cons_self b t)
      simp only [List.map_cons]
      rw [ih (fun x hx => h x (List.mem_cons_of_mem b hx))]
      unfold dischargeUpd
      rw [if_neg (by simpa using hb)]

theorem countAdmitted_map_discharge (date : String) (a : Admission) :
    ∀ l : List Admission,
      l.Pairwise (fun x y => x.admissionID ≠ y.admissionID) → a ∈ l →
      ∀ rid : Nat,
        countAdmitted (l.map (dischargeUpd date a.admissionID)) rid +
          (if (a.roomID == some rid && a.status == "Admitted") = true then 1
           else 0) =
        countAdmitted l rid := by
  intro l
  induction l with
  | nil => intro _ ha; cases ha
  | cons b t ih =>
      intro hp ha rid
      rw [List.pairwise_cons] at hp
      simp only [List.map_cons]
      rcases List.mem_cons.mp ha with rfl | hat
      · have ht : t.map (dischargeUpd date a.admissionID) = t :=
          map_dischargeUpd_eq_self date a.admissionID t
            (fun x hx => (hp.1 x hx).symm)
        rw [ht, countAdmitted_cons, countAdmitted_cons]
        have hda : dischargeUpd date a.admissionID a =
            { a with status := "Discharged", dischargeDate := some date } := by
          unfold dischargeUpd
          rw [if_pos (by simp)]
        rw [hda]
        simp only []
        have hfalse :
            (({ a with status := "Discharged", dischargeDate := some date }
                : Admission).roomID == some rid &&
              ({ a with status := "Discharged", dischargeDate := some date }
                : Admission).status == "Admitted") = false := by
          simp
        rw [hfalse]
        simp only [Bool.false_eq_true, if_false]
        omega
      · have hbne : b.admissionID ≠ a.admissionID := hp.1 a hat
        have hb : dischargeUpd date a.admissionID b = b := by
          unfold dischargeUpd
          rw [if_neg (by simpa using hbne)]
        rw [hb, countAdmitted_cons, countAdmitted_cons]
        have := ih hp.2 hat rid
        omega

/-! ### Invariant lemmas -/

theorem strongInv_roomInv (s : Store) (h : strongInv s) : roomInv s := by
  intro r hr
  have hc := h.1 r hr
  constructor
  · intro hs; rwa [if_pos hs] at hc
  · intro h1
    by_contra hs
    rw [if_neg hs] at hc
    omega

theorem strongInv_insert_then_occupy (s : Store) (hinv : strongInv s)
    (pid did : Nat) (room : Room) (hroom : room ∈ s.rooms)
    (hav : room.status = "Available") (date notes : String) :
    strongInv (applyStmt (Stmt.updateRoomStatus room.roomID "Occupied")
      (applyStmt (Stmt.insertAdmission pid did room.roomID date notes) s)) := by
  obtain ⟨hcount, hpair, hbound⟩ := hinv
  have hcnt0 : countAdmitted s.admissions room.roomID = 0 := by
    have h := hcount room hroom
    rw [hav] at h
    rwa [if_neg (by decide)] at h
  simp only [applyStmt]
  refine ⟨?_, ?_, ?_⟩
  · intro r' hr'
    simp only [] at hr'
    rcases List.mem_map.mp hr' with ⟨r, hr, rfl⟩
    rw [countAdmitted_append, countAdmitted_singleton]
    by_cases hc : r.roomID = room.roomID
    · have hupd : roomUpd "Occupied" room.roomID r = { r with status := "Occupied" } := by
        unfold roomUpd
        rw [if_pos (by simpa using hc)]
      rw [hupd]
      simp only []
      rw [hc, hcnt0]
      simp
    · have hupd : roomUpd "Occupied" room.roomID r = r := by
        unfold roomUpd
        rw [if_neg (by simpa using hc)]
      rw [hupd]
      have hnew :
          ((⟨s.nextAdmissionID, pid, did, some room.roomID, date, none,
              "Admitted", notes⟩ : Admission).roomID == some r.roomID &&
            (⟨s.nextAdmissionID, pid, did, some room.roomID, date, none,
              "Admitted", notes⟩ : Admission).status == "Admitted") = false := by
        simp
        intro hcon
        exact absurd hcon.symm hc
      rw [hnew]
      simp only [Bool.false_eq_true, if_false, Nat.add_zero]
      exact hcount r hr
  · rw [List.pairwise_append]
    refine ⟨hpair, List.pairwise_singleton _ _, ?_⟩
    intro x hx y hy
    have hy' : y = ⟨s.nextAdmissionID, pid, did, some room.roomID, date, none,
        "Admitted", notes⟩ := by simpa using hy
    rw [hy']
    exact Nat.ne_of_lt (hbound x hx)
  · intro x hx
    rcases List.mem_append.mp hx with h | h
    · exact Nat.lt_succ_of_lt (hbound x h)
    · have hx' : x = ⟨s.nextAdmissionID, pid, did, some room.roomID, date, none,
          "Admitted", notes⟩ := by simpa using h
      rw [hx']
      exact Nat.lt_succ_self _

theorem strongInv_discharge_state (s : Store) (hinv : strongInv s)
    (a : Admission) (ha : a ∈ s.admissions) (rid : Nat)
    (hrid : a.roomID = some rid) (hstat : a.status = "Admitted")
    (date : String) :
    strongInv (applyStmt (Stmt.updateRoomStatus rid "Available")
      (applyStmt (Stmt.updateAdmissionDischarge date a.admissionID) s)) := by
  obtain ⟨hcount, hpair, hbound⟩ := hinv
  have hkey : ∀ rid' : Nat,
      countAdmitted (s.admissions.map (dischargeUpd date a.admissionID)) rid' +
        (if (a.roomID == some rid' && a.status == "Admitted") = true then 1
         else 0) =
      countAdmitted s.admissions rid' :=
    fun rid' => countAdmitted_map_discharge date a s.admissions hpair ha rid'
  simp only [applyStmt]
  refine ⟨?_, ?_, ?_⟩
  · intro r' hr'
    simp only [] at hr'
    rcases List.mem_map.mp hr' with ⟨r, hr, rfl⟩
    by_cases hc : r.roomID = rid
    · have hupd : roomUpd "Available" rid r = { r with status := "Available" } := by
        unfold roomUpd
        rw [if_pos (by simpa using hc)]
      rw [hupd]
      simp only []
      rw [if_neg (by decide)]
      have hpos : 0 < countAdmitted s.admissions rid :=
        countAdmitted_pos s.admissions a rid ha hrid hstat
      have h1 : countAdmitted s.admissions r.roomID =
          if r.status = "Occupied" then 1 else 0 := hcount r hr
      rw [hc] at h1
      have hone : countAdmitted s.admissions rid = 1 := by
        by_cases ho : r.status = "Occupied"
        · rwa [if_pos ho] at h1
        · rw [if_neg ho] at h1; omega
      have hk := hkey rid
      rw [hrid, hstat] at hk
      simp at hk
      have : countAdmitted (s.admissions.map (dischargeUpd date a.admissionID)) rid = 0 := by
        omega
      rw [hc]
      simpa using this
    · have hupd : roomUpd "Available" rid r = r := by
        unfold roomUpd
        rw [if_neg (by simpa using hc)]
      rw [hupd]
      have hk := hkey r.roomID
      rw [hrid] at hk
      have hcond : ((some rid == some r.roomID) &&
          (a.status == "Admitted")) = false := by
        simp
        intro hcon
        exact absurd hcon (fun hh => hc hh.symm)
      rw [hcond] at hk
      simp only [Bool.false_eq_true, if_false, Nat.add_zero] at hk
      rw [hk]
      exact hcount r hr
  · rw [List.pairwise_map]
    exact hpair.imp (fun h => by simpa [dischargeUpd_admissionID] using h)
  · intro x hx
    simp only [] at hx
    rcases List.mem_map.mp hx with ⟨y, hy, rfl⟩
    rw [dischargeUpd_admissionID]
    exact hbound y hy

theorem strongInv_admit (s : Store) (hinv : strongInv s) (pid did : Nat)
    (rt : String) (num : Nat) (date notes : String) (exec : Driver)
    (hexec : Faithful exec) :
    strongInv (create_new_admission pid did rt num date notes exec s).2 := by
  unfold create_new_admission
  cases hf : (find_available rt s).find? (fun r => r.roomNumber == num) with
  | none =>
      cases hie : (find_available rt s).isEmpty <;> simp <;> exact hinv
  | some room =>
      have hmem : room ∈ find_available rt s := List.mem_of_find?_eq_some hf
      have hroom : room ∈ s.rooms := (List.mem_filter.mp hmem).1
      have hav : room.status = "Available" := by
        have h2 := (List.mem_filter.mp hmem).2
        simp at h2
        exact h2.2
      rcases hexec (Stmt.insertAdmission pid did room.roomID date notes) s
        with h1 | h1
      · simp [execute_transaction, runStmts, h1]
        exact hinv
      · rcases hexec (Stmt.updateRoomStatus room.roomID "Occupied")
          (applyStmt (Stmt.insertAdmission pid did room.roomID date notes) s)
          with h2 | h2
        · simp [execute_transaction, runStmts, h1, h2]
          exact hinv
        · simp [execute_transaction, runStmts, h1, h2]
          exact strongInv_insert_then_occupy s hinv pid did room hroom hav
            date notes

theorem strongInv_discharge (s : Store) (hinv : strongInv s) (aid : Nat)
    (date notes : String) (exec : Driver) (hexec : Faithful exec)
    (hadm : ∀ a,
      (s.admissions.filter (fun x => x.admissionID == aid)).head? = some a →
      a.status = "Admitted") :
    strongInv (process_discharge aid date notes exec s).2 := by
  unfold process_discharge discharge_core
  cases hfl : s.admissions.filter (fun x => x.admissionID == aid) with
  | nil => simpa using hinv
  | cons a t =>
      have hhead :
          (s.admissions.filter (fun x => x.admissionID == aid)).head? =
            some a := by rw [hfl]; rfl
      have hstat : a.status = "Admitted" := hadm a hhead
      have hafl : a ∈ s.admissions.filter (fun x => x.admissionID == aid) := by
        rw [hfl]; exact List.mem_cons_self a t
      have hamem : a ∈ s.admissions := (List.mem_filter.mp hafl).1
      have haid : a.admissionID = aid := by
        have h2 := (List.mem_filter.mp hafl).2
        simpa using h2
      simp only [List.head?]
      cases hrid : a.roomID with
      | none => simpa using hinv
      | some rid =>
          rcases hexec (Stmt.updateAdmissionDischarge date aid) s with h1 | h1
          · simp [execute_transaction, runStmts, h1]
            exact hinv
          · rcases hexec (Stmt.updateRoomStatus rid "Available")
              (applyStmt (Stmt.updateAdmissionDischarge date aid) s)
              with h2 | h2
            · simp [execute_transaction, runStmts, h1, h2]
              exact hinv
            · simp [execute_transaction, runStmts, h1, h2]
              rw [← haid]
              exact strongInv_discharge_state s hinv a hamem rid hrid hstat date

instance (s : Store) : Decidable (strongInv s) := by
  unfold strongInv
  exact inferInstance

instance (s : Store) : Decidable (roomInv s) := by
  unfold roomInv
  exact inferInstance

/-! ### Claim theorems -/

/-- C6: `execute_transaction` is all-or-nothing: it returns `False` exactly
when some statement failed, and then the store is exactly the pre-state
(rollback); it returns `True` exactly when every statement succeeded, and
then the store is the result of applying all statements in order (commit). -/
theorem execute_transaction_all_or_nothing (exec : Driver) (qs : List Stmt)
    (s : Store) :
    (∀ s', execute_transaction exec qs s = (false, s') → s' = s) ∧
    (∀ s', execute_transaction exec qs s = (true, s') →
      runStmts exec qs s = some s') ∧
    (runStmts exec qs s = none → execute_transaction exec qs s = (false, s)) ∧
    (∀ s', runStmts exec qs s = some s' →
      execute_transaction exec qs s = (true, s')) := by
  unfold execute_transaction
  cases hr : runStmts exec qs s with
  | none =>
      refine ⟨?_, ?_, ?_, ?_⟩
      · intro s' h
        simp at h
        exact h.symm
      · intro s' h
        simp at h
      · intro _
        rfl
      · intro s' h
        simp at h
  | some s2 =>
      refine ⟨?_, ?_, ?_, ?_⟩
      · intro s' h
        simp at h
      · intro s' h
        simp at h
        rw [h]
      · intro h
        simp at h
      · intro s' h
        simp at h
        rw [h]

/-- C6 witness: a driver that fails the second statement of a two-statement
transaction rolls the first statement back: the store is unchanged. -/
theorem execute_transaction_all_or_nothing_witness :
    (execute_transaction execFailRoomUpd
        [Stmt.insertAdmission 7 3 101 "2024-01-01" "",
         Stmt.updateRoomStatus 101 "Occupied"] demoStore).2 = demoStore :=
  (execute_transaction_all_or_nothing execFailRoomUpd
      [Stmt.insertAdmission 7 3 101 "2024-01-01" "",
       Stmt.updateRoomStatus 101 "Occupied"] demoStore).1
    (execute_transaction execFailRoomUpd
        [Stmt.insertAdmission 7 3 101 "2024-01-01" "",
         Stmt.updateRoomStatus 101 "Occupied"] demoStore).2 (by decide)

/-- C5: when the available-rooms query for the requested type is empty, the
admit operation returns the no-capacity outcome (a constructor distinct from
the transaction-failure outcome) and the store is untouched: no Admission row
inserted, no Room status changed. -/
theorem create_new_admission_no_capacity (pid did : Nat) (rt : String)
    (num : Nat) (date notes : String) (exec : Driver) (s : Store)
    (h : find_available rt s = []) :
    create_new_admission pid did rt num date notes exec s =
      (AdmitResult.noCapacity, s) ∧
    AdmitResult.noCapacity ≠ AdmitResult.txFailed := by
  refine ⟨?_, by decide⟩
  unfold create_new_admission
  rw [h]
  rfl

/-- C5 witness: requesting an ICU admission against a store owning only a
General room yields `noCapacity` and the unchanged store. -/
theorem create_new_admission_no_capacity_witness :
    create_new_admission 7 3 "ICU" 1 "2024-01-01" "" execStmt
        demoGeneralStore = (AdmitResult.noCapacity, demoGeneralStore) ∧
    AdmitResult.noCapacity ≠ AdmitResult.txFailed :=
  create_new_admission_no_capacity 7 3 "ICU" 1 "2024-01-01" "" execStmt
    demoGeneralStore (by decide)

/-- C7: a failed admission lookup in `process_discharge` — no Admission row
for the id, or a found row whose room reference is missing — aborts with no
writes: the store comes back exactly unchanged. -/
theorem process_discharge_lookup_failure (aid : Nat) (date notes : String)
    (exec : Driver) (s : Store) :
    (s.admissions.filter (fun x => x.admissionID == aid) = [] →
      process_discharge aid date notes exec s = (none, s)) ∧
    (∀ a,
      (s.admissions.filter (fun x => x.admissionID == aid)).head? = some a →
      a.roomID = none →
      process_discharge aid date notes exec s = (some false, s)) := by
  unfold process_discharge discharge_core
  constructor
  · intro h
    rw [h]
    rfl
  · intro a hh hr
    rw [hh]
    simp [hr]

/-- C7 witness: discharging an id with no Admission row leaves the store
unchanged, as does discharging a row whose room reference is NULL. -/
theorem process_discharge_lookup_failure_witness :
    process_discharge 99 "2024-01-02" "" execStmt demoStore =
      (none, demoStore) ∧
    process_discharge 60 "2024-01-02" "" execStmt demoNullRoomStore =
      (some false, demoNullRoomStore) :=
  ⟨(process_discharge_lookup_failure 99 "2024-01-02" "" execStmt
      demoStore).1 (by decide),
   (process_discharge_lookup_failure 60 "2024-01-02" "" execStmt
      demoNullRoomStore).2 demoNullAdm (by decide) (by decide)⟩

/-- C9: `process_discharge` produces `none` (Python `None`, falling through
with no explicit return) exactly when the admission lookup is empty; whenever
a row is found, or an exception is caught, the result is a boolean. -/
theorem process_discharge_none_iff (aid : Nat) (date notes : String)
    (exec : Driver) (s : Store) :
    (process_discharge aid date notes exec s).1 = none ↔
      s.admissions.filter (fun x => x.admissionID == aid) = [] := by
  unfold process_discharge discharge_core
  cases hfl : s.admissions.filter (fun x => x.admissionID == aid) with
  | nil => simp
  | cons a t =>
      simp only [List.head?]
      cases a.roomID with
      | none => simp
      | some rid =>
          cases execute_transaction exec
            [Stmt.updateAdmissionDischarge date aid,
             Stmt.updateRoomStatus rid "Available"] s with
          | mk ok s' => simp

/-- C10: `run_query` turns a failed store read into the empty row list, so a
failed read inside `process_discharge` behaves exactly like the not-found
case: the result is `none`, the store is untouched, and the outcome is
indistinguishable from a genuinely empty result. -/
theorem run_query_failure_like_empty (aid : Nat) (date notes msg : String)
    (exec : Driver) (s : Store) :
    run_query (Except.error msg) = ([] : List Admission) ∧
    process_discharge_with_read aid date notes (Except.error msg) exec s =
      (none, s) ∧
    process_discharge_with_read aid date notes (Except.error msg) exec s =
      process_discharge_with_read aid date notes (Except.ok []) exec s :=
  ⟨rfl, rfl, rfl⟩

/-- C1: for every successful admit, exactly one Admission row is appended
(`Status = 'Admitted'`, fresh id, the chosen available room's id) and the
chosen room is set to `'Occupied'`, both computed from the same pre-state;
for every unsuccessful outcome the store is exactly the pre-state, so no
observable state has only one side changed. -/
theorem create_new_admission_atomic (pid did : Nat) (rt : String) (num : Nat)
    (date notes : String) (exec : Driver) (hexec : Faithful exec)
    (s : Store) :
    ((create_new_admission pid did rt num date notes exec s).1 =
        AdmitResult.success →
      ∃ room ∈ find_available rt s,
        room.roomNumber = num ∧ room.status = "Available" ∧
        (create_new_admission pid did rt num date notes exec s).2.admissions =
          s.admissions ++
            [⟨s.nextAdmissionID, pid, did, some room.roomID, date, none,
              "Admitted", notes⟩] ∧
        (create_new_admission pid did rt num date notes exec s).2.rooms =
          s.rooms.map (roomUpd "Occupied" room.roomID)) ∧
    ((create_new_admission pid did rt num date notes exec s).1 ≠
        AdmitResult.success →
      (create_new_admission pid did rt num date notes exec s).2 = s) := by
  unfold create_new_admission
  cases hf : (find_available rt s).find? (fun r => r.roomNumber == num) with
  | none =>
      cases hie : (find_available rt s).isEmpty <;> simp
  | some room =>
      have hmem : room ∈ find_available rt s := List.mem_of_find?_eq_some hf
      have hnum : room.roomNumber = num := by
        have hp := List.find?_some hf
        simpa using hp
      have hav : room.status = "Available" := by
        have h2 := (List.mem_filter.mp hmem).2
        simp at h2
        exact h2.2
      rcases hexec (Stmt.insertAdmission pid did room.roomID date notes) s
        with h1 | h1
      · simp [execute_transaction, runStmts, h1]
      · rcases hexec (Stmt.updateRoomStatus room.roomID "Occupied")
          (applyStmt (Stmt.insertAdmission pid did room.roomID date notes) s)
          with h2 | h2
        · simp [execute_transaction, runStmts, h1, h2]
        · simp only [execute_transaction, runStmts, h1, h2]
          constructor
          · intro _
            exact ⟨room, hmem, hnum, hav, rfl, rfl⟩
          · intro hne
            exact absurd rfl hne

/-- C1 witness: with a failing driver the admit attempt reports a
transaction failure and the store is exactly unchanged. -/
theorem create_new_admission_atomic_witness :
    (create_new_admission 99 88 "ICU" 101 "2024-01-01" "" execNone
        demoStore).2 = demoStore :=
  (create_new_admission_atomic 99 88 "ICU" 101 "2024-01-01" "" execNone
    execNone_faithful demoStore).2 (by decide)

/-- C4: for every successful discharge of an `Admitted` admission, the
admission row is set to `Discharged` with the given date, the referenced
room — necessarily `Occupied` beforehand — is set to `Available`, both
computed from the same pre-state; a failed transaction leaves the store
exactly unchanged. -/
theorem process_discharge_atomic (aid : Nat) (date notes : String)
    (exec : Driver) (hexec : Faithful exec) (s : Store) (a : Admission)
    (rid : Nat)
    (ha : (s.admissions.filter (fun x => x.admissionID == aid)).head? = some a)
    (hst : a.status = "Admitted") (hrid : a.roomID = some rid)
    (hinv : strongInv s) :
    ((process_discharge aid date notes exec s).1 = some true →
      (process_discharge aid date notes exec s).2.admissions =
        s.admissions.map (dischargeUpd date aid) ∧
      (process_discharge aid date notes exec s).2.rooms =
        s.rooms.map (roomUpd "Available" rid) ∧
      (∀ x ∈ (process_discharge aid date notes exec s).2.admissions,
        x.admissionID = aid →
          x.status = "Discharged" ∧ x.dischargeDate = some date) ∧
      (∀ r ∈ s.rooms, r.roomID = rid → r.status = "Occupied")) ∧
    ((process_discharge aid date notes exec s).1 = some false →
      (process_discharge aid date notes exec s).2 = s) := by
  have hoccupied : ∀ r ∈ s.rooms, r.roomID = rid → r.status = "Occupied" := by
    intro r hr hreq
    have hafl : a ∈ s.admissions.filter (fun x => x.admissionID == aid) := by
      cases hfl : s.admissions.filter (fun x => x.admissionID == aid) with
      | nil => rw [hfl] at ha; simp at ha
      | cons b t =>
          rw [hfl] at ha
          simp at ha
          rw [← ha]
          exact List.mem_cons_self b t
    have hamem : a ∈ s.admissions := (List.mem_filter.mp hafl).1
    have hpos : 0 < countAdmitted s.admissions rid :=
      countAdmitted_pos s.admissions a rid hamem hrid hst
    have hcnt := hinv.1 r hr
    rw [hreq] at hcnt
    by_cases ho : r.status = "Occupied"
    · exact ho
    · rw [if_neg ho] at hcnt
      omega
  unfold process_discharge discharge_core
  cases hfl : s.admissions.filter (fun x => x.admissionID == aid) with
  | nil => rw [hfl] at ha; simp at ha
  | cons b t =>
      rw [hfl] at ha
      simp at ha
      subst ha
      simp only [List.head?]
      rw [hrid]
      rcases hexec (Stmt.updateAdmissionDischarge date aid) s with h1 | h1
      · simp [execute_transaction, runStmts, h1]
      · rcases hexec (Stmt.updateRoomStatus rid "Available")
          (applyStmt (Stmt.updateAdmissionDischarge date aid) s)
          with h2 | h2
        · simp [execute_transaction, runStmts, h1, h2]
        · simp only [execute_transaction, runStmts, h1, h2]
          constructor
          · intro _
            refine ⟨rfl, rfl, ?_, hoccupied⟩
            intro x hx hxid
            simp only [applyStmt] at hx
            rcases List.mem_map.mp hx with ⟨y, hy, rfl⟩
            by_cases hya : y.admissionID = aid
            · unfold dischargeUpd
              rw [if_pos (by simpa using hya)]
              exact ⟨rfl, rfl⟩
            · rw [dischargeUpd_admissionID] at hxid
              exact absurd hxid hya
          · intro hcon
            simp at hcon

/-- C4 witness: with a failing driver the discharge reports failure and the
store is exactly unchanged. -/
theorem process_discharge_atomic_witness :
    (process_discharge 50 "2024-01-10" "" execNone demoStep1).2 =
      demoStep1 :=
  (process_discharge_atomic 50 "2024-01-10" "" execNone execNone_faithful
    demoStep1 ⟨50, 7, 3, some 101, "2024-01-01", none, "Admitted", ""⟩ 101
    (by decide) rfl rfl (by decide)).2 (by decide)

/-- C2 (amended): in every store satisfying the strengthened invariant the
spec's biconditional holds (a room is `Occupied` iff exactly one `Admitted`
admission references it), and the strengthened invariant — hence the
biconditional — is preserved by every admit outcome and by every discharge
whose looked-up admission still has `Status = 'Admitted'`.  (It is not
preserved by a discharge of an already-discharged admission whose room has
been re-occupied; see the counterexample.) -/
theorem room_invariant_preserved (s : Store) (hinv : strongInv s) :
    roomInv s ∧
    (∀ pid did rt num date notes exec, Faithful exec →
      strongInv (create_new_admission pid did rt num date notes exec s).2) ∧
    (∀ aid date notes exec, Faithful exec →
      (∀ a,
        (s.admissions.filter (fun x => x.admissionID == aid)).head? = some a →
        a.status = "Admitted") →
      strongInv (process_discharge aid date notes exec s).2) :=
  ⟨strongInv_roomInv s hinv,
   fun pid did rt num date notes exec hexec =>
     strongInv_admit s hinv pid did rt num date notes exec hexec,
   fun aid date notes exec hexec hadm =>
     strongInv_discharge s hinv aid date notes exec hexec hadm⟩

/-- C2 witness: the strengthened invariant holds for the demo store and is
carried through an admit into room 101. -/
theorem room_invariant_preserved_witness :
    strongInv
      (create_new_admission 7 3 "ICU" 101 "2024-01-01" "" execStmt
        demoStore).2 :=
  (room_invariant_preserved demoStore (by decide)).2.1 7 3 "ICU" 101
    "2024-01-01" "" execStmt execStmt_faithful

/-- C2 counterexample: the biconditional invariant is not preserved by an
arbitrary sequence of operations.  After admit (id 50) — discharge (50) —
re-admit (id 51), the invariant holds; a second discharge call against the
already-discharged admission 50 then succeeds and breaks it: room 101 is
flipped to `Available` while admission 51 still references it with
`Status = 'Admitted'`. -/
theorem room_invariant_broken_by_repeat_discharge :
    roomInv demoStore ∧
    roomInv demoStep3 ∧
    ((demoStep3.admissions.find? (fun x => x.admissionID == 50)).map
      (fun x => x.status)) = some "Discharged" ∧
    (process_discharge 50 "2024-01-12" "" execStmt demoStep3).1 =
      some true ∧
    ¬ roomInv (process_discharge 50 "2024-01-12" "" execStmt demoStep3).2 := by
  decide

/-- C3: the code is not idempotent on a second `process_discharge` of the
same admission id.  Evaluated at the failing input (admission 50 already
`Discharged` with date 2024-01-10, its room 101 re-occupied by the
`Admitted` admission 51), the second call reports success, overwrites
`DischargeDate` with the new date, and flips room 101 back to `Available`
even though admission 51 still occupies it. -/
theorem process_discharge_second_call_mutates :
    (process_discharge 50 "2024-01-12" "" execStmt demoStep3).1 =
      some true ∧
    ((demoStep3.admissions.find? (fun x => x.admissionID == 50)).map
      (fun x => x.dischargeDate)) = some (some "2024-01-10") ∧
    (((process_discharge 50 "2024-01-12" "" execStmt
        demoStep3).2.admissions.find? (fun x => x.admissionID == 50)).map
      (fun x => x.dischargeDate)) = some (some "2024-01-12") ∧
    ((demoStep3.rooms.find? (fun r => r.roomID == 101)).map
      (fun r => r.status)) = some "Occupied" ∧
    (((process_discharge 50 "2024-01-12" "" execStmt
        demoStep3).2.rooms.find? (fun r => r.roomID == 101)).map
      (fun r => r.status)) = some "Available" ∧
    ((demoStep3.admissions.find? (fun x => x.admissionID == 51)).map
      (fun x => x.status)) = some "Admitted" ∧
    (((process_discharge 50 "2024-01-12" "" execStmt
        demoStep3).2.admissions.find? (fun x => x.admissionID == 51)).map
      (fun x => x.status)) = some "Admitted" := by
  decide
